import Mathlib

/-!
Verification of the campaign financial ledger and blockchain settlement
adapter of the ITM-MSC charity platform, as a shallow embedding.

Money amounts (Django `DecimalField`) are modelled as exact rationals `ℚ`;
timestamps (`DateTimeField`) as integers `ℤ`.  Database rows are Lean
structures, tables are lists, and every fallible operation returns
`Except`.  The `transaction.atomic` blocks of the views are modelled by
returning the original table on error (rollback) and the updated table on
success.  Each definition is translated from the named source function.
-/

namespace CharityPlatform

/-- `CampaignStatus` choices (apps/charity/models.py). -/
inductive CampaignStatus where
  | upcoming
  | active
  | completed
  | ended
deriving DecidableEq, Repr

/-- `DonationStatus` choices (apps/charity/models.py). -/
inductive DonationStatus where
  | pending
  | completed
  | failed
deriving DecidableEq, Repr

/-- `CampaignEventStatus` choices (apps/charity/models.py). -/
inductive CampaignEventStatus where
  | pending
  | completed
  | cancelled
deriving DecidableEq, Repr

/-- `Token` model (apps/on_chain/models.py): only the field used by the
donation-valuation logic is kept. -/
structure Token where
  value_fiat_lkr : ℚ
deriving DecidableEq, Repr

/-- `Charity` model: the fields touched by the settlement logic. -/
structure Charity where
  on_chain_id : Option ℕ
  transaction_hash : Option String
deriving DecidableEq, Repr

/-- `Campaign` model: the fields read or written by the ledger,
allocation and settlement logic. -/
structure Campaign where
  goal_amount : ℚ
  raised_amount : ℚ
  start_date : ℤ
  end_date : ℤ
  status : CampaignStatus
  on_chain_id : Option ℕ
  transaction_hash : Option String
deriving DecidableEq, Repr

/-- `Donation` model: the fields read by the recomputation and
validation logic.  `amount` is nullable (`null=True`) hence `Option ℚ`. -/
structure Donation where
  amount : Option ℚ
  token : Option Token
  token_quantity : Option ℚ
  status : DonationStatus
  transaction_hash : Option String
deriving DecidableEq, Repr

/-- `CampaignEvent` model: primary key plus the fields read by
`CampaignEvent.clean` and the settlement signal. -/
structure CampaignEvent where
  id : ℕ
  amount : ℚ
  status : CampaignEventStatus
  transaction_hash : Option String
deriving DecidableEq, Repr

/-! ## CampaignLedger: status and raised-amount recomputation -/

/-- `Campaign.update_status` (models.py lines 92‑107): the status branch
structure, written exactly in source order.  Returns the new status. -/
def Campaign.computeStatusModels (now : ℤ) (c : Campaign) : CampaignStatus :=
  if c.raised_amount ≥ c.goal_amount then CampaignStatus.completed
  else if now < c.start_date then CampaignStatus.upcoming
  else if c.start_date ≤ now ∧ now ≤ c.end_date then CampaignStatus.active
  else CampaignStatus.ended

/-- `Campaign.update_status` (models.py lines 92‑107): sets `status` from
time and goal achievement and saves only the status field. -/
def Campaign.update_status (now : ℤ) (c : Campaign) : Campaign :=
  { c with status := c.computeStatusModels now }

/-- The aggregate of `update_campaign_status_and_amount` (signals.py
lines 14‑19): sum of `amount` over the campaign's donations with
`status=COMPLETED` and `amount__isnull=False`; `or 0` gives 0 on the
empty aggregate. -/
def completedSum (ds : List Donation) : ℚ :=
  ((ds.filter fun d =>
      decide (d.status = DonationStatus.completed) && d.amount.isSome).map
    fun d => d.amount.getD 0).sum

/-- `update_campaign_status_and_amount` (signals.py lines 8‑40): sets
`raised_amount` to the completed-donation aggregate, recomputes `status`
from time and goal, then unconditionally calls
`campaign.save(update_fields=['raised_amount','status'])`.  The boolean
records whether a save (database write) was issued. -/
def update_campaign_status_and_amount (now : ℤ) (c : Campaign)
    (ds : List Donation) : Campaign × Bool :=
  let total_raised := completedSum ds
  let c1 := { c with raised_amount := total_raised }
  let c2 :=
    if c1.raised_amount ≥ c1.goal_amount then
      { c1 with status := CampaignStatus.completed }
    else if now < c1.start_date then
      { c1 with status := CampaignStatus.upcoming }
    else if c1.start_date ≤ now ∧ now ≤ c1.end_date then
      { c1 with status := CampaignStatus.active }
    else
      { c1 with status := CampaignStatus.ended }
  (c2, true)

/-- `update_campaign_status_on_save` (signals.py lines 62‑87): the
Campaign post-save handler recomputes the status only and saves it only
when it differs from the stored status.  The boolean records whether a
save was issued. -/
def update_campaign_status_on_save (now : ℤ) (c : Campaign) :
    Campaign × Bool :=
  let old_status := c.status
  let new_status :=
    if c.raised_amount ≥ c.goal_amount then CampaignStatus.completed
    else if now < c.start_date then CampaignStatus.upcoming
    else if c.start_date ≤ now ∧ now ≤ c.end_date then CampaignStatus.active
    else CampaignStatus.ended
  if new_status ≠ old_status then ({ c with status := new_status }, true)
  else (c, false)

/-! ## FundAllocationTracker: campaign events and the overallocation check -/

/-- The causes of the `ValidationError`s raised by `CampaignEvent.clean`
(models.py lines 193‑216), in source order. -/
inductive CleanError where
  | notSettleable
  | amountNotPositive
  | overallocation
deriving DecidableEq, Repr

/-- The row filter `status__in=[PENDING, COMPLETED]` shared by the
allocation aggregates. -/
def eventPC (e : CampaignEvent) : Bool :=
  decide (e.status = CampaignEventStatus.pending) ||
  decide (e.status = CampaignEventStatus.completed)

/-- The aggregate inside `CampaignEvent.clean` (models.py lines 206‑210):
sum of amounts of the campaign's events with status PENDING or COMPLETED,
excluding the event with the given primary key; `or 0` gives 0 on the
empty aggregate. -/
def total_allocated_excluding (evs : List CampaignEvent) (eid : ℕ) : ℚ :=
  ((evs.filter fun e => eventPC e && decide (e.id ≠ eid)).map
    fun e => e.amount).sum

/-- `CampaignEvent.get_total_allocated_for_campaign` (models.py lines
222‑228): sum of amounts of the campaign's PENDING/COMPLETED events. -/
def get_total_allocated_for_campaign (evs : List CampaignEvent) : ℚ :=
  ((evs.filter eventPC).map fun e => e.amount).sum

/-- `CampaignEvent.get_remaining_funds_for_campaign` (models.py lines
230‑234). -/
def get_remaining_funds_for_campaign (c : Campaign)
    (evs : List CampaignEvent) : ℚ :=
  max 0 (c.raised_amount - get_total_allocated_for_campaign evs)

/-- `CampaignEvent.clean` (models.py lines 193‑216), checks in source
order: campaign status must be COMPLETED or ENDED; amount must be
positive; allocation excluding this event plus this amount must not
exceed the campaign's raised amount. -/
def CampaignEvent.clean (c : Campaign) (evs : List CampaignEvent)
    (e : CampaignEvent) : Except CleanError Unit :=
  if ¬(c.status = CampaignStatus.completed ∨ c.status = CampaignStatus.ended)
  then Except.error CleanError.notSettleable
  else if e.amount ≤ 0 then Except.error CleanError.amountNotPositive
  else if total_allocated_excluding evs e.id + e.amount > c.raised_amount
  then Except.error CleanError.overallocation
  else Except.ok ()

/-- The row insert/update performed by `super().save()`: replace the row
with this primary key if present, otherwise append it. -/
def upsertEvent (evs : List CampaignEvent) (e : CampaignEvent) :
    List CampaignEvent :=
  if evs.any (fun x => x.id = e.id) then
    evs.map fun x => if x.id = e.id then e else x
  else evs ++ [e]

/-- `CampaignEvent.save` (models.py lines 218‑220): `self.clean()` then
`super().save()`.  On a `ValidationError` nothing is persisted: the
stored event table is returned unchanged inside `Except.error`. -/
def CampaignEvent.save (c : Campaign) (evs : List CampaignEvent)
    (e : CampaignEvent) : Except CleanError (List CampaignEvent) :=
  match CampaignEvent.clean c evs e with
  | Except.error err => Except.error err
  | Except.ok _ => Except.ok (upsertEvent evs e)

/-! ## ReconciliationTrigger: the campaign-event post-save signal -/

/-- Outcome of a remote chain call, as seen by the signal handlers:
either a transaction hash or a raised `BlockchainServiceError`
message. -/
abbrev ChainOutcome := Except String String

/-- `handle_campaign_event_status_change` (signals.py lines 90‑137).
Arguments mirror what the handler reads: the `created` flag of the
post-save signal, the saved event, whether `blockchain_service` is
configured, the owning campaign's `on_chain_id`, and the outcome the
chain call would produce if issued.  Returns (submissionAttempted,
resulting event row): a chain submission is attempted exactly when the
`create_campaign_event_on_chain` call is reached; on success the
transaction hash is written back, on failure the error is logged and the
row is left as it was. -/
def handle_campaign_event_status_change (created : Bool)
    (e : CampaignEvent) (configured : Bool)
    (campaign_on_chain_id : Option ℕ) (chain : ChainOutcome) :
    Bool × CampaignEvent :=
  if created = false ∧ e.status = CampaignEventStatus.completed ∧
      e.transaction_hash = none then
    if configured then
      match campaign_on_chain_id with
      | none => (false, e)
      | some _ =>
        match chain with
        | Except.ok tx => (true, { e with transaction_hash := some tx })
        | Except.error _ => (true, e)
    else (false, e)
  else (false, e)

/-- The status rule as the specification words it (§3 of the spec):
COMPLETED whenever raised ≥ goal, otherwise UPCOMING / ACTIVE / ENDED by
the date window.  Used only to compare the source's two recomputation
paths against the spec (refinement). -/
def specStatus (now start_d end_d : ℤ) (goal raised : ℚ) : CampaignStatus :=
  if raised ≥ goal then CampaignStatus.completed
  else if now < start_d then CampaignStatus.upcoming
  else if start_d ≤ now ∧ now ≤ end_d then CampaignStatus.active
  else CampaignStatus.ended

/-! ## SettlementCoordinator: the create-then-settle view logic -/

/-- Result of `register_charity_on_chain` / `create_campaign_on_chain`:
`(on_chain_id, transaction_hash)`, or the raised
`BlockchainServiceError` message. -/
abbrev ChainIdOutcome := Except String (ℕ × String)

/-- `CharityViewSet.perform_create` (views.py lines 42‑82).  Inside
`transaction.atomic()` the charity is saved first (chain fields null);
if the service is configured the chain call is made and its result
written back, and a `BlockchainServiceError` is re-raised, rolling the
whole transaction back.  Returns (operation outcome, resulting charity
table): on error the table is the original one (rollback). -/
def CharityViewSet.perform_create (configured : Bool)
    (chain : ChainIdOutcome) (db : List Charity) :
    Except String Unit × List Charity :=
  let charity : Charity := { on_chain_id := none, transaction_hash := none }
  if configured then
    match chain with
    | Except.ok (oid, tx) =>
        (Except.ok (),
         db ++ [{ charity with on_chain_id := some oid,
                               transaction_hash := some tx }])
    | Except.error e =>
        (Except.error ("Blockchain registration failed: " ++ e), db)
  else (Except.ok (), db ++ [charity])

/-- `CampaignViewSet.perform_create` (views.py lines 165‑213), same
atomic shape: save the campaign, then if configured require the owning
charity's `on_chain_id` (else `ValueError`, rolled back), then make the
chain call; a `BlockchainServiceError` is re-raised and rolls the
transaction back. -/
def CampaignViewSet.perform_create (configured : Bool)
    (charity_on_chain_id : Option ℕ) (chain : ChainIdOutcome)
    (c0 : Campaign) (db : List Campaign) :
    Except String Unit × List Campaign :=
  let campaign := { c0 with on_chain_id := none, transaction_hash := none }
  if configured then
    match charity_on_chain_id with
    | none =>
        (Except.error
          "Charity must be registered on blockchain before creating campaigns",
         db)
    | some _ =>
        match chain with
        | Except.ok (oid, tx) =>
            (Except.ok (),
             db ++ [{ campaign with on_chain_id := some oid,
                                    transaction_hash := some tx }])
        | Except.error e =>
            (Except.error ("Blockchain campaign creation failed: " ++ e), db)
  else (Except.ok (), db ++ [campaign])

/-- Outcome of the donate action (views.py lines 251‑324): whether an
HTTP 201 success was returned, the persisted donation row if any, and
whether an error was written to the log. -/
structure DonateResult where
  success : Bool
  donation : Option Donation
  logged_error : Bool
deriving DecidableEq, Repr

/-- The body of `CampaignViewSet.donate` after validation succeeds
(views.py lines 264‑322).  `DonationCreateSerializer.create` saves the
donation with `status=COMPLETED` and no transaction hash.  If the
service is configured: a missing campaign `on_chain_id` raises
`ValueError`, which the inner handler does not catch, so the outer
handler rolls back and returns a 500; a `BlockchainServiceError` from
the chain call is caught and logged, the donation is kept unsettled, and
the 201 response is still returned; on chain success the hash is written
back. -/
def CampaignViewSet.donate_settle (configured : Bool)
    (campaign_on_chain_id : Option ℕ) (chain : ChainOutcome)
    (d0 : Donation) : DonateResult :=
  let d := { d0 with status := DonationStatus.completed,
                     transaction_hash := none }
  if configured then
    match campaign_on_chain_id with
    | none => { success := false, donation := none, logged_error := true }
    | some _ =>
        match chain with
        | Except.ok tx =>
            { success := true,
              donation := some { d with transaction_hash := some tx },
              logged_error := false }
        | Except.error _ =>
            { success := true, donation := some d, logged_error := true }
  else { success := true, donation := some d, logged_error := false }

/-! ## ChainClient: BlockchainService guard behaviour -/

/-- Errors raised by `BlockchainService` methods.  `notConfigured` is the
`_check_configured` error ("Blockchain service is not configured...");
`wrapped` is any other `BlockchainServiceError` built from a caught
exception's message. -/
inductive ServiceError where
  | notConfigured
  | wrapped (msg : String)
deriving DecidableEq, Repr

/-- The state of `BlockchainService` relevant to the guards
(blockchain_service.py lines 29‑82): `_initialize_web3` leaves
`contract = None` and `is_configured = False` when any configuration
parameter is missing. -/
structure BlockchainService where
  is_configured : Bool
  has_contract : Bool
deriving DecidableEq, Repr

/-- A fresh service constructed with missing configuration
(blockchain_service.py lines 44‑51). -/
def BlockchainService.unconfigured : BlockchainService :=
  { is_configured := false, has_contract := false }

/-- `BlockchainService._check_configured` (lines 84‑89). -/
def BlockchainService.check_configured (svc : BlockchainService) :
    Except ServiceError Unit :=
  if ¬svc.is_configured then Except.error ServiceError.notConfigured
  else Except.ok ()

/-- `register_charity_on_chain` (lines 143‑177): `_check_configured()`
first (outside the try), then the guarded chain interaction, whose
outcome is a parameter. -/
def BlockchainService.register_charity_on_chain (svc : BlockchainService)
    (chain : Except ServiceError (ℕ × String)) :
    Except ServiceError (ℕ × String) :=
  match svc.check_configured with
  | Except.error e => Except.error e
  | Except.ok _ =>
      match chain with
      | Except.ok r => Except.ok r
      | Except.error _e =>
          Except.error (ServiceError.wrapped "Charity registration failed")

/-- `create_campaign_on_chain` (lines 179‑217): `_check_configured()`
first. -/
def BlockchainService.create_campaign_on_chain (svc : BlockchainService)
    (chain : Except ServiceError (ℕ × String)) :
    Except ServiceError (ℕ × String) :=
  match svc.check_configured with
  | Except.error e => Except.error e
  | Except.ok _ =>
      match chain with
      | Except.ok r => Except.ok r
      | Except.error _e =>
          Except.error (ServiceError.wrapped "Campaign creation failed")

/-- `donate_native_on_chain` (lines 219‑243): `_check_configured()`
first. -/
def BlockchainService.donate_native_on_chain (svc : BlockchainService)
    (chain : Except ServiceError String) : Except ServiceError String :=
  match svc.check_configured with
  | Except.error e => Except.error e
  | Except.ok _ =>
      match chain with
      | Except.ok r => Except.ok r
      | Except.error _e => Except.error (ServiceError.wrapped "Donation failed")

/-- `donate_erc20_on_chain` (lines 245‑280): the one chain-submitting
method with no `_check_configured()` call.  With no configuration the
body runs anyway; `self.contract` is `None`, the attribute access throws,
and the generic handler wraps it as `BlockchainServiceError("ERC20
donation failed: ...")`. -/
def BlockchainService.donate_erc20_on_chain (svc : BlockchainService)
    (chain : Except ServiceError String) : Except ServiceError String :=
  if ¬svc.has_contract then
    Except.error (ServiceError.wrapped "ERC20 donation failed")
  else
    match chain with
    | Except.ok r => Except.ok r
    | Except.error _e =>
        Except.error (ServiceError.wrapped "ERC20 donation failed")

/-- `withdraw_funds_on_chain` (lines 282‑308): `_check_configured()`
first. -/
def BlockchainService.withdraw_funds_on_chain (svc : BlockchainService)
    (chain : Except ServiceError String) : Except ServiceError String :=
  match svc.check_configured with
  | Except.error e => Except.error e
  | Except.ok _ =>
      match chain with
      | Except.ok r => Except.ok r
      | Except.error _e =>
          Except.error (ServiceError.wrapped "Fund withdrawal failed")

/-- `create_campaign_event_on_chain` (lines 310‑341):
`_check_configured()` first. -/
def BlockchainService.create_campaign_event_on_chain
    (svc : BlockchainService) (chain : Except ServiceError String) :
    Except ServiceError String :=
  match svc.check_configured with
  | Except.error e => Except.error e
  | Except.ok _ =>
      match chain with
      | Except.ok r => Except.ok r
      | Except.error _e =>
          Except.error (ServiceError.wrapped "Campaign event creation failed")

/-! ## Donation creation: serializer validation and the donate endpoint -/

/-- Python truthiness of an optional decimal: `None` and `0` are falsy
(the serializer tests `if amount`, `if token_quantity`). -/
def truthy : Option ℚ → Bool
  | none => false
  | some q => decide (q ≠ 0)

/-- `Campaign.get_remaining_amount` (models.py lines 109‑111):
`max(0, goal_amount - raised_amount)`. -/
def Campaign.get_remaining_amount (c : Campaign) : ℚ :=
  max 0 (c.goal_amount - c.raised_amount)

/-- `Campaign.can_accept_donation_amount` (models.py lines 113‑115). -/
def Campaign.can_accept_donation_amount (c : Campaign) (amount : ℚ) : Bool :=
  decide (amount ≤ c.get_remaining_amount)

/-- `Campaign.can_accept_donations` (models.py lines 82‑90): ACTIVE
status, inside the date window, and goal not yet reached. -/
def Campaign.can_accept_donations (now : ℤ) (c : Campaign) : Bool :=
  decide (c.status = CampaignStatus.active) &&
  decide (c.start_date ≤ now ∧ now ≤ c.end_date) &&
  decide (c.raised_amount < c.goal_amount)

/-- The payload of a donation-creation request
(`DonationCreateSerializer` fields: campaign, amount, token,
token_quantity).  `campaign` is the serializer's required writable
campaign field — the row the request body's campaign primary key
resolves to, which need not be the campaign named in the URL. -/
structure DonationRequest where
  campaign : Campaign
  amount : Option ℚ
  token : Option Token
  token_quantity : Option ℚ
deriving DecidableEq, Repr

/-- The `donation_value` computed inside
`DonationCreateSerializer.validate` (serializers.py lines 266‑280):
the fiat amount when truthy, else token quantity times the token's
`value_fiat_lkr` when both are present, else 0. -/
def donation_value (req : DonationRequest) : ℚ :=
  if truthy req.amount then req.amount.getD 0
  else if truthy req.token_quantity ∧ req.token.isSome then
    req.token_quantity.getD 0 * (req.token.map Token.value_fiat_lkr).getD 0
  else 0

/-- `DonationCreateSerializer.validate` (serializers.py lines 229‑290),
checks in source order: at least one of amount/token_quantity truthy;
truthy amount must not be ≤ 0; truthy token_quantity must not be ≤ 0;
the campaign — `data.get("campaign")`, i.e. the request-body campaign —
must pass `can_accept_donations`; the donation value must pass
`can_accept_donation_amount` against that same body campaign.  Errors
carry the serializer's message intent. -/
def DonationCreateSerializer.validate (now : ℤ)
    (req : DonationRequest) : Except String Unit :=
  if ¬truthy req.amount ∧ ¬truthy req.token_quantity then
    Except.error "Either amount or token_quantity must be provided"
  else if truthy req.amount ∧ req.amount.getD 0 ≤ 0 then
    Except.error "Amount must be greater than 0"
  else if truthy req.token_quantity ∧ req.token_quantity.getD 0 ≤ 0 then
    Except.error "Token quantity must be greater than 0"
  else if ¬req.campaign.can_accept_donations now then
    Except.error "This campaign is not currently accepting donations"
  else if ¬req.campaign.can_accept_donation_amount (donation_value req) then
    Except.error "This donation would exceed the campaign goal"
  else Except.ok ()

/-- One request through `CampaignViewSet.donate` (views.py lines
251‑324), as it affects the ledger.  `c` is the URL campaign
(`self.get_object()`); `campaign.update_status()` runs on it first.
The serializer then validates against the request-body campaign
(`req.campaign`).  On success the view overrides
`serializer.validated_data["campaign"]` with the URL campaign
(views.py line 267) before `serializer.save()`, so the donation —
whatever campaign the body named — is persisted onto the URL campaign
with `status=COMPLETED`, and the Donation post-save signal recomputes
the URL campaign.  Returns the new URL-campaign row, its new donation
table, and whether the donation was accepted. -/
def donateEndpointStep (c : Campaign) (ds : List Donation)
    (step : ℤ × DonationRequest) : Campaign × List Donation × Bool :=
  let now := step.1
  let req := step.2
  let c1 := Campaign.update_status now c
  match DonationCreateSerializer.validate now req with
  | Except.error _ => (c1, ds, false)
  | Except.ok _ =>
      let d : Donation :=
        { amount := req.amount, token := req.token,
          token_quantity := req.token_quantity,
          status := DonationStatus.completed, transaction_hash := none }
      let ds1 := ds ++ [d]
      let c2 := (update_campaign_status_and_amount now c1 ds1).1
      (c2, ds1, true)

/-- A whole sequence of donation requests arriving through the donate
endpoint of one URL campaign. -/
def donateEndpointRun (c : Campaign) (ds : List Donation)
    (steps : List (ℤ × DonationRequest)) : Campaign × List Donation :=
  steps.foldl (fun st step =>
    let r := donateEndpointStep st.1 st.2 step
    (r.1, r.2.1)) (c, ds)

/-- The normal same-campaign flow: every request's body campaign pk is
the URL campaign's pk, so the row the serializer resolves it to is the
URL campaign's current row (its status freshly saved by
`campaign.update_status()`). -/
def matchedRun : Campaign → List Donation → List (ℤ × DonationRequest) → Prop
  | _, _, [] => True
  | c, ds, s :: rest =>
      s.2.campaign = Campaign.update_status s.1 c ∧
      matchedRun (donateEndpointStep c ds s).1
        (donateEndpointStep c ds s).2.1 rest

/-! ## Theorems -/

/-- C2: the recompute run after any donation change sets the campaign's
`raised_amount` to exactly the sum of `amount` over COMPLETED donations
with non-null amount; the empty aggregate is 0; a donation with null
amount (token-only) contributes nothing; the operation is total (no
error condition). -/
theorem C2_recompute_raised_amount (now : ℤ) (c : Campaign)
    (ds : List Donation) (d : Donation) :
    (update_campaign_status_and_amount now c ds).1.raised_amount
        = completedSum ds ∧
    completedSum [] = 0 ∧
    (d.amount = none → completedSum (d :: ds) = completedSum ds) := by
  refine ⟨?_, rfl, ?_⟩
  · unfold update_campaign_status_and_amount
    dsimp only
    split_ifs <;> rfl
  · intro h
    simp [completedSum, List.filter_cons, h]

/-- C2 witness: a concrete token-only donation leaves the aggregate
unchanged. -/
theorem C2_recompute_raised_amount_witness :
    ({ amount := none, token := some { value_fiat_lkr := 3 },
       token_quantity := some 2, status := DonationStatus.completed,
       transaction_hash := none } : Donation).amount = none ∧
    completedSum
      [{ amount := none, token := some { value_fiat_lkr := 3 },
         token_quantity := some 2, status := DonationStatus.completed,
         transaction_hash := none },
       { amount := some 40, token := none, token_quantity := none,
         status := DonationStatus.completed, transaction_hash := none }]
      = completedSum
        [{ amount := some 40, token := none, token_quantity := none,
           status := DonationStatus.completed, transaction_hash := none }] :=
  ⟨rfl,
   (C2_recompute_raised_amount 0
      { goal_amount := 100, raised_amount := 0, start_date := 0,
        end_date := 10, status := CampaignStatus.active,
        on_chain_id := none, transaction_hash := none }
      [{ amount := some 40, token := none, token_quantity := none,
         status := DonationStatus.completed, transaction_hash := none }]
      { amount := none, token := some { value_fiat_lkr := 3 },
        token_quantity := some 2, status := DonationStatus.completed,
        transaction_hash := none }).2.2 rfl⟩

/-- C3: the recomputed status is a pure function of `(now, start_date,
end_date, goal_amount, raised_amount)` — both recomputation paths
(`Campaign.update_status` and the donation-triggered recompute) realise
`specStatus`; COMPLETED is evaluated first (raised ≥ goal wins over the
date window), otherwise UPCOMING / ACTIVE / ENDED by the window; and
recomputing twice without intervening writes is idempotent. -/
theorem C3_status_pure_function (now : ℤ) (c : Campaign)
    (ds : List Donation) :
    (Campaign.update_status now c).status
        = specStatus now c.start_date c.end_date c.goal_amount
            c.raised_amount ∧
    (update_campaign_status_and_amount now c ds).1.status
        = specStatus now c.start_date c.end_date c.goal_amount
            (completedSum ds) ∧
    (c.raised_amount ≥ c.goal_amount →
      (Campaign.update_status now c).status = CampaignStatus.completed) ∧
    (c.raised_amount < c.goal_amount → now < c.start_date →
      (Campaign.update_status now c).status = CampaignStatus.upcoming) ∧
    (c.raised_amount < c.goal_amount → c.start_date ≤ now → now ≤ c.end_date →
      (Campaign.update_status now c).status = CampaignStatus.active) ∧
    (c.raised_amount < c.goal_amount → c.start_date < c.end_date →
      c.end_date < now →
      (Campaign.update_status now c).status = CampaignStatus.ended) ∧
    Campaign.update_status now (Campaign.update_status now c)
        = Campaign.update_status now c := by
  refine ⟨rfl, ?_, ?_, ?_, ?_, ?_, rfl⟩
  · unfold update_campaign_status_and_amount specStatus
    dsimp only
    split_ifs <;> rfl
  · intro h
    simp [Campaign.update_status, Campaign.computeStatusModels, h]
  · intro h1 h2
    simp [Campaign.update_status, Campaign.computeStatusModels,
      not_le.mpr h1, h2]
  · intro h1 h2 h3
    simp [Campaign.update_status, Campaign.computeStatusModels,
      not_le.mpr h1, not_lt.mpr h2, h2, h3]
  · intro h1 h2 h3
    have hs : ¬ now < c.start_date := by omega
    have hw : ¬ (c.start_date ≤ now ∧ now ≤ c.end_date) := by omega
    simp [Campaign.update_status, Campaign.computeStatusModels,
      not_le.mpr h1, hs, hw]

/-- C3 witness: the scenario of §8 — goal 1000, raised 1000, inside the
window, status recomputes to COMPLETED. -/
theorem C3_status_pure_function_witness :
    ((1000 : ℚ) ≥ 1000) ∧
    (Campaign.update_status 5
      { goal_amount := 1000, raised_amount := 1000, start_date := 0,
        end_date := 10, status := CampaignStatus.active,
        on_chain_id := none, transaction_hash := none }).status
      = CampaignStatus.completed :=
  ⟨le_refl _,
   (C3_status_pure_function 5
      { goal_amount := 1000, raised_amount := 1000, start_date := 0,
        end_date := 10, status := CampaignStatus.active,
        on_chain_id := none, transaction_hash := none } []).2.2.1
     (le_refl _)⟩

/-- C5: when chain integration is configured and the chain submission
raises during charity or campaign creation, the create is fully rolled
back — the stored table is unchanged and the operation fails for the
caller. -/
theorem C5_creation_chain_failure_rolls_back (err : String)
    (db : List Charity) (db2 : List Campaign) (c0 : Campaign) (k : ℕ) :
    CharityViewSet.perform_create true (Except.error err) db
        = (Except.error ("Blockchain registration failed: " ++ err), db) ∧
    CampaignViewSet.perform_create true (some k) (Except.error err) c0 db2
        = (Except.error ("Blockchain campaign creation failed: " ++ err),
           db2) :=
  ⟨rfl, rfl⟩

/-- C6: when the chain submission for a donation fails with a chain
execution error, the donation row is kept with status COMPLETED and a
null transaction hash, the error is logged, and the donate operation
still reports success. -/
theorem C6_donation_chain_failure_kept (err : String) (k : ℕ)
    (d0 : Donation) :
    CampaignViewSet.donate_settle true (some k) (Except.error err) d0
      = { success := true,
          donation := some { d0 with status := DonationStatus.completed,
                                     transaction_hash := none },
          logged_error := true } :=
  rfl

/-- C9: when the chain client is not configured, charity creation still
succeeds locally, persisting the row with `on_chain_id` and
`transaction_hash` both null and raising nothing. -/
theorem C9_unconfigured_charity_create_succeeds (chain : ChainIdOutcome)
    (db : List Charity) :
    CharityViewSet.perform_create false chain db
      = (Except.ok (),
         db ++ [{ on_chain_id := none, transaction_hash := none }]) :=
  rfl

/-- C7 counterexample: a recompute in which neither `raised_amount` nor
`status` changes from the stored value still issues a database write —
`update_campaign_status_and_amount` ends in an unconditional
`campaign.save(...)`, so the claimed "no write when nothing changed"
behaviour is false at this input. -/
theorem C7_counterexample :
    (update_campaign_status_and_amount 5
      { goal_amount := 100, raised_amount := 0, start_date := 0,
        end_date := 10, status := CampaignStatus.active,
        on_chain_id := none, transaction_hash := none } []).1
      = { goal_amount := 100, raised_amount := 0, start_date := 0,
          end_date := 10, status := CampaignStatus.active,
          on_chain_id := none, transaction_hash := none } ∧
    (update_campaign_status_and_amount 5
      { goal_amount := 100, raised_amount := 0, start_date := 0,
        end_date := 10, status := CampaignStatus.active,
        on_chain_id := none, transaction_hash := none } []).2 = true := by
  constructor
  · show (update_campaign_status_and_amount _ _ _).1 = _
    unfold update_campaign_status_and_amount
    norm_num [completedSum]
  · rfl

/-- C7 amended: the donation-triggered recompute
(`update_campaign_status_and_amount`) always writes `raised_amount` and
`status`, even when neither changed; only the Campaign post-save handler
(`update_campaign_status_on_save`) guards its write, persisting exactly
when the recomputed status differs from the stored one. -/
theorem C7_amended_write_behaviour (now : ℤ) (c : Campaign)
    (ds : List Donation) :
    (update_campaign_status_and_amount now c ds).2 = true ∧
    (specStatus now c.start_date c.end_date c.goal_amount c.raised_amount
        = c.status →
      update_campaign_status_on_save now c = (c, false)) ∧
    (specStatus now c.start_date c.end_date c.goal_amount c.raised_amount
        ≠ c.status →
      update_campaign_status_on_save now c
        = ({ c with status := specStatus now c.start_date c.end_date
                                c.goal_amount c.raised_amount }, true)) := by
  refine ⟨rfl, ?_, ?_⟩
  · intro h
    unfold update_campaign_status_on_save
    dsimp only
    rw [if_neg]
    simp only [specStatus] at h
    simp [h]
  · intro h
    unfold update_campaign_status_on_save
    dsimp only
    rw [if_pos]
    · rfl
    · simpa only [specStatus] using h

/-- C7 amended witness: at the counterexample state the recomputed
status equals the stored one, the Campaign post-save handler writes
nothing, and the donation-triggered recompute still writes. -/
theorem C7_amended_write_behaviour_witness :
    specStatus 5 0 10 100 0 = CampaignStatus.active ∧
    update_campaign_status_on_save 5
      { goal_amount := 100, raised_amount := 0, start_date := 0,
        end_date := 10, status := CampaignStatus.active,
        on_chain_id := none, transaction_hash := none }
      = ({ goal_amount := 100, raised_amount := 0, start_date := 0,
           end_date := 10, status := CampaignStatus.active,
           on_chain_id := none, transaction_hash := none }, false) :=
  ⟨by norm_num [specStatus],
   (C7_amended_write_behaviour 5
      { goal_amount := 100, raised_amount := 0, start_date := 0,
        end_date := 10, status := CampaignStatus.active,
        on_chain_id := none, transaction_hash := none } []).2.1
     (by norm_num [specStatus])⟩

/-- C4: a chain submission for a campaign event is attempted only when
the save is not the initial creation, the status is COMPLETED, and the
transaction hash is null; once a hash is recorded no further save of
that event ever issues a submission (at-most-once settlement). -/
theorem C4_settlement_at_most_once (created : Bool) (e : CampaignEvent)
    (configured : Bool) (oid : Option Nat) (chain : ChainOutcome) :
    ((handle_campaign_event_status_change created e configured oid
        chain).1 = true →
      created = false ∧ e.status = CampaignEventStatus.completed ∧
        e.transaction_hash = none) ∧
    (e.transaction_hash ≠ none →
      (handle_campaign_event_status_change created e configured oid
        chain).1 = false) := by
  constructor
  · intro h
    unfold handle_campaign_event_status_change at h
    split at h
    · next hcond => exact hcond
    · simp at h
  · intro hne
    unfold handle_campaign_event_status_change
    split
    · next hcond => exact absurd hcond.2.2 hne
    · rfl

/-- C4 witness: an event that already carries a transaction hash is
never submitted again, even on a repeated save in COMPLETED status. -/
theorem C4_settlement_at_most_once_witness :
    (some "0xabc" : Option String) ≠ none ∧
    (handle_campaign_event_status_change false
      { id := 1, amount := 50, status := CampaignEventStatus.completed,
        transaction_hash := some "0xabc" } true (some 7)
      (Except.ok "0xdef")).1 = false :=
  ⟨by simp,
   (C4_settlement_at_most_once false
      { id := 1, amount := 50, status := CampaignEventStatus.completed,
        transaction_hash := some "0xabc" } true (some 7)
      (Except.ok "0xdef")).2 (by simp)⟩

/-- C8: on an unconfigured service, five of the six chain-submitting
methods fail fast with the not-configured error, but
`donate_erc20_on_chain` — which omits the `_check_configured()` call —
does not: it runs its body and surfaces a wrapped generic error
instead.  This evaluates the code at the claim's failing input. -/
theorem C8_erc20_skips_configured_guard
    (chainId : Except ServiceError (ℕ × String))
    (chainTx : Except ServiceError String) :
    BlockchainService.unconfigured.register_charity_on_chain chainId
        = Except.error ServiceError.notConfigured ∧
    BlockchainService.unconfigured.create_campaign_on_chain chainId
        = Except.error ServiceError.notConfigured ∧
    BlockchainService.unconfigured.donate_native_on_chain chainTx
        = Except.error ServiceError.notConfigured ∧
    BlockchainService.unconfigured.withdraw_funds_on_chain chainTx
        = Except.error ServiceError.notConfigured ∧
    BlockchainService.unconfigured.create_campaign_event_on_chain chainTx
        = Except.error ServiceError.notConfigured ∧
    BlockchainService.unconfigured.donate_erc20_on_chain chainTx
        = Except.error (ServiceError.wrapped "ERC20 donation failed") ∧
    BlockchainService.unconfigured.donate_erc20_on_chain chainTx
        ≠ Except.error ServiceError.notConfigured := by
  refine ⟨rfl, rfl, rfl, rfl, rfl, rfl, ?_⟩
  simp [BlockchainService.donate_erc20_on_chain, BlockchainService.unconfigured]

/-! ### C1 support lemmas -/

lemma total_allocated_cons (x : CampaignEvent) (xs : List CampaignEvent) :
    get_total_allocated_for_campaign (x :: xs)
      = (if eventPC x then x.amount else 0)
        + get_total_allocated_for_campaign xs := by
  simp only [get_total_allocated_for_campaign, List.filter_cons]
  split <;> simp

lemma total_allocated_append (xs ys : List CampaignEvent) :
    get_total_allocated_for_campaign (xs ++ ys)
      = get_total_allocated_for_campaign xs
        + get_total_allocated_for_campaign ys := by
  simp [get_total_allocated_for_campaign, List.filter_append]

lemma excluding_cons (x : CampaignEvent) (xs : List CampaignEvent)
    (i : ℕ) :
    total_allocated_excluding (x :: xs) i
      = (if eventPC x && decide (x.id ≠ i) then x.amount else 0)
        + total_allocated_excluding xs i := by
  simp only [total_allocated_excluding, List.filter_cons]
  split <;> simp

lemma excluding_eq_total_of_absent (xs : List CampaignEvent) (i : ℕ)
    (h : ∀ x ∈ xs, x.id ≠ i) :
    total_allocated_excluding xs i = get_total_allocated_for_campaign xs := by
  induction xs with
  | nil => rfl
  | cons x xs ih =>
      rw [excluding_cons, total_allocated_cons,
        ih fun y hy => h y (List.mem_cons_of_mem _ hy)]
      have hx : decide (x.id ≠ i) = true := by
        simpa using h x (List.mem_cons_self x xs)
      rw [hx, Bool.and_true]

lemma replace_map_id (e : CampaignEvent) :
    ∀ xs : List CampaignEvent, (∀ y ∈ xs, y.id ≠ e.id) →
      xs.map (fun x => if x.id = e.id then e else x) = xs := by
  intro xs
  induction xs with
  | nil => intro _; rfl
  | cons x xs ih =>
      intro h
      simp only [List.map_cons]
      rw [if_neg (h x (List.mem_cons_self x xs)),
        ih fun y hy => h y (List.mem_cons_of_mem _ hy)]

lemma total_map_replace_le (e : CampaignEvent) (hpos : 0 < e.amount) :
    ∀ evs : List CampaignEvent, (evs.map CampaignEvent.id).Nodup →
      get_total_allocated_for_campaign
          (evs.map fun x => if x.id = e.id then e else x)
        ≤ total_allocated_excluding evs e.id + e.amount := by
  intro evs
  induction evs with
  | nil =>
      intro _
      simpa [get_total_allocated_for_campaign, total_allocated_excluding]
        using hpos.le
  | cons x xs ih =>
      intro hn
      rw [List.map_cons, List.nodup_cons] at hn
      by_cases hx : x.id = e.id
      · have htail : ∀ y ∈ xs, y.id ≠ e.id := by
          intro y hy hye
          exact hn.1
            (by rw [← hx] at hye; exact hye ▸ List.mem_map_of_mem CampaignEvent.id hy)
        rw [List.map_cons, if_pos hx, replace_map_id e xs htail,
          total_allocated_cons, excluding_cons,
          excluding_eq_total_of_absent xs e.id htail]
        have hxf : decide (x.id ≠ e.id) = false := by simp [hx]
        rw [hxf, Bool.and_false]
        have hz : (if (false : Bool) then x.amount else 0) = 0 := rfl
        rw [hz]
        split
        · linarith
        · linarith
      · rw [List.map_cons, if_neg hx, total_allocated_cons, excluding_cons]
        have hxt : decide (x.id ≠ e.id) = true := by simp [hx]
        rw [hxt, Bool.and_true]
        have hih := ih hn.2
        split
        · linarith
        · linarith

lemma total_upsert_le (evs : List CampaignEvent) (e : CampaignEvent)
    (hn : (evs.map CampaignEvent.id).Nodup) (hpos : 0 < e.amount) :
    get_total_allocated_for_campaign (upsertEvent evs e)
      ≤ total_allocated_excluding evs e.id + e.amount := by
  unfold upsertEvent
  split
  · exact total_map_replace_le e hpos evs hn
  · next hany =>
      have habs : ∀ x ∈ evs, x.id ≠ e.id := by
        intro x hx
        simp only [List.any_eq_true, decide_eq_true_eq] at hany
        exact fun hxe => hany ⟨x, hx, hxe⟩
      rw [total_allocated_append, excluding_eq_total_of_absent evs e.id habs,
        total_allocated_cons]
      have hnil : get_total_allocated_for_campaign ([] : List CampaignEvent)
          = 0 := rfl
      rw [hnil]
      split
      · linarith
      · linarith

/-- C1: after every successful campaign-event save (creation or status
change) the sum of amounts of that campaign's PENDING/COMPLETED events
is at most the campaign's `raised_amount`; a save whose amount plus the
PENDING/COMPLETED allocation excluding that event exceeds
`raised_amount` fails with the overallocation `ValidationError` and, by
the `Except` discipline, persists nothing — the stored events and the
campaign are untouched. -/
theorem C1_overallocation_invariant (c : Campaign)
    (evs : List CampaignEvent) (e : CampaignEvent)
    (hn : (evs.map CampaignEvent.id).Nodup) :
    (∀ evs2, CampaignEvent.save c evs e = Except.ok evs2 →
      get_total_allocated_for_campaign evs2 ≤ c.raised_amount) ∧
    ((c.status = CampaignStatus.completed ∨ c.status = CampaignStatus.ended) →
      0 < e.amount →
      c.raised_amount < total_allocated_excluding evs e.id + e.amount →
      CampaignEvent.save c evs e = Except.error CleanError.overallocation) := by
  constructor
  · intro evs2 hs
    unfold CampaignEvent.save CampaignEvent.clean at hs
    by_cases h1 :
        c.status = CampaignStatus.completed ∨ c.status = CampaignStatus.ended
    · rw [if_neg (not_not_intro h1)] at hs
      by_cases h2 : e.amount ≤ 0
      · rw [if_pos h2] at hs
        cases hs
      · rw [if_neg h2] at hs
        by_cases h3 :
            total_allocated_excluding evs e.id + e.amount > c.raised_amount
        · rw [if_pos h3] at hs
          cases hs
        · rw [if_neg h3] at hs
          have hups : upsertEvent evs e = evs2 := by
            simpa using hs
          have hpos : 0 < e.amount := lt_of_not_le h2
          calc get_total_allocated_for_campaign evs2
              = get_total_allocated_for_campaign (upsertEvent evs e) := by
                rw [hups]
            _ ≤ total_allocated_excluding evs e.id + e.amount :=
                total_upsert_le evs e hn hpos
            _ ≤ c.raised_amount := not_lt.mp h3
    · rw [if_pos h1] at hs
      cases hs
  · intro hst hpos hover
    unfold CampaignEvent.save CampaignEvent.clean
    rw [if_neg (not_not_intro hst), if_neg (not_le.mpr hpos), if_pos hover]

/-- C1 witness: the §8 scenario — raised 1000, 600 already PENDING; a
500 allocation is rejected as overallocation. -/
theorem C1_overallocation_invariant_witness :
    (([{ id := 1, amount := 600, status := CampaignEventStatus.pending,
         transaction_hash := none }] : List CampaignEvent).map
      CampaignEvent.id).Nodup ∧
    CampaignEvent.save
      { goal_amount := 1000, raised_amount := 1000, start_date := 0,
        end_date := 10, status := CampaignStatus.completed,
        on_chain_id := none, transaction_hash := none }
      [{ id := 1, amount := 600, status := CampaignEventStatus.pending,
         transaction_hash := none }]
      { id := 2, amount := 500, status := CampaignEventStatus.pending,
        transaction_hash := none }
      = Except.error CleanError.overallocation := by
  refine ⟨by simp, ?_⟩
  exact (C1_overallocation_invariant
    { goal_amount := 1000, raised_amount := 1000, start_date := 0,
      end_date := 10, status := CampaignStatus.completed,
      on_chain_id := none, transaction_hash := none }
    [{ id := 1, amount := 600, status := CampaignEventStatus.pending,
       transaction_hash := none }]
    { id := 2, amount := 500, status := CampaignEventStatus.pending,
      transaction_hash := none }
    (by simp)).2 (Or.inl rfl) (by norm_num)
    (by norm_num [total_allocated_excluding, eventPC])

/-! ### C10 support lemmas -/

@[simp] lemma update_status_raised (now : ℤ) (c : Campaign) :
    (Campaign.update_status now c).raised_amount = c.raised_amount := rfl

@[simp] lemma update_status_goal (now : ℤ) (c : Campaign) :
    (Campaign.update_status now c).goal_amount = c.goal_amount := rfl

@[simp] lemma update_status_start (now : ℤ) (c : Campaign) :
    (Campaign.update_status now c).start_date = c.start_date := rfl

@[simp] lemma update_status_end (now : ℤ) (c : Campaign) :
    (Campaign.update_status now c).end_date = c.end_date := rfl

lemma recompute_fields (now : ℤ) (c : Campaign) (ds : List Donation) :
    (update_campaign_status_and_amount now c ds).1.raised_amount
        = completedSum ds ∧
    (update_campaign_status_and_amount now c ds).1.goal_amount
        = c.goal_amount := by
  unfold update_campaign_status_and_amount
  dsimp only
  split_ifs <;> exact ⟨rfl, rfl⟩

lemma completedSum_append (ds : List Donation) (d : Donation) :
    completedSum (ds ++ [d])
      = completedSum ds
        + (if decide (d.status = DonationStatus.completed) && d.amount.isSome
           then d.amount.getD 0 else 0) := by
  simp only [completedSum, List.filter_append, List.map_append,
    List.sum_append, List.filter_cons, List.filter_nil]
  split <;> simp

lemma can_accept_donations_iff (now : ℤ) (c : Campaign) :
    c.can_accept_donations now = true ↔
      c.status = CampaignStatus.active ∧ c.start_date ≤ now ∧
      now ≤ c.end_date ∧ c.raised_amount < c.goal_amount := by
  simp [Campaign.can_accept_donations, and_assoc]

lemma not_truthy_cases (q : Option ℚ) (h : truthy q = false) :
    q = none ∨ q = some 0 := by
  cases q with
  | none => exact Or.inl rfl
  | some a =>
      right
      simp only [truthy, decide_eq_false_iff_not, not_not] at h
      rw [h]

lemma validate_ok_facts (now : ℤ) (req : DonationRequest)
    (h : DonationCreateSerializer.validate now req = Except.ok ()) :
    req.campaign.can_accept_donations now = true ∧
    req.campaign.can_accept_donation_amount (donation_value req) = true ∧
    (truthy req.amount = true → 0 < req.amount.getD 0) := by
  unfold DonationCreateSerializer.validate at h
  by_cases h1 : ¬truthy req.amount ∧ ¬truthy req.token_quantity
  · rw [if_pos h1] at h; cases h
  · rw [if_neg h1] at h
    by_cases h2 : truthy req.amount ∧ req.amount.getD 0 ≤ 0
    · rw [if_pos h2] at h; cases h
    · rw [if_neg h2] at h
      by_cases h3 : truthy req.token_quantity ∧ req.token_quantity.getD 0 ≤ 0
      · rw [if_pos h3] at h; cases h
      · rw [if_neg h3] at h
        by_cases h4 : ¬req.campaign.can_accept_donations now
        · rw [if_pos h4] at h; cases h
        · rw [if_neg h4] at h
          by_cases h5 :
              ¬req.campaign.can_accept_donation_amount (donation_value req)
          · rw [if_pos h5] at h; cases h
          · refine ⟨not_not.mp h4, not_not.mp h5, ?_⟩
            intro ht
            by_contra hpos
            exact h2 ⟨ht, not_lt.mp hpos⟩

lemma donate_step_invariant (c : Campaign) (ds : List Donation)
    (step : ℤ × DonationRequest)
    (hmatch : step.2.campaign = Campaign.update_status step.1 c)
    (hc : completedSum ds = c.raised_amount)
    (hle : c.raised_amount ≤ c.goal_amount) :
    completedSum (donateEndpointStep c ds step).2.1
        = (donateEndpointStep c ds step).1.raised_amount ∧
    (donateEndpointStep c ds step).1.raised_amount
        ≤ (donateEndpointStep c ds step).1.goal_amount := by
  obtain ⟨now, req⟩ := step
  dsimp only at hmatch
  unfold donateEndpointStep
  dsimp only
  cases hv : DonationCreateSerializer.validate now req with
  | error msg =>
      exact ⟨hc, hle⟩
  | ok u =>
      obtain ⟨hacc, hamt, hpos⟩ := validate_ok_facts now req hv
      rw [hmatch] at hacc hamt
      have hwin := (can_accept_donations_iff now _).mp hacc
      have hlt : c.raised_amount < c.goal_amount := by
        simpa using hwin.2.2.2
      have hval : donation_value req ≤ max 0 (c.goal_amount - c.raised_amount) := by
        have := hamt
        simp only [Campaign.can_accept_donation_amount,
          Campaign.get_remaining_amount, decide_eq_true_eq] at this
        simpa using this
      have hrem : max 0 (c.goal_amount - c.raised_amount)
          = c.goal_amount - c.raised_amount :=
        max_eq_right (by linarith)
      constructor
      · exact (recompute_fields now (Campaign.update_status now c) _).1.symm
      · rw [(recompute_fields now (Campaign.update_status now c) _).1,
          (recompute_fields now (Campaign.update_status now c) _).2,
          update_status_goal, completedSum_append]
        cases hta : req.amount with
        | none =>
            simp only [hta, Option.isSome_none, Bool.and_false]
            rw [if_neg (by simp), hc]
            linarith
        | some a =>
            by_cases ha0 : a = 0
            · simp only [hta, ha0]
              norm_num
              rw [hc]
              linarith
            · have htr : truthy req.amount = true := by
                simp [truthy, hta, ha0]
              have hvala : donation_value req = a := by
                unfold donation_value
                rw [if_pos htr, hta]
                rfl
              have : a ≤ c.goal_amount - c.raised_amount := by
                rw [hvala] at hval
                rw [hrem] at hval
                exact hval
              simp only [hta]
              norm_num
              rw [hc]
              linarith

lemma donate_run_invariant (steps : List (ℤ × DonationRequest)) :
    ∀ c ds, matchedRun c ds steps →
      completedSum ds = c.raised_amount →
      c.raised_amount ≤ c.goal_amount →
      completedSum (donateEndpointRun c ds steps).2
          = (donateEndpointRun c ds steps).1.raised_amount ∧
      (donateEndpointRun c ds steps).1.raised_amount
          ≤ (donateEndpointRun c ds steps).1.goal_amount := by
  induction steps with
  | nil => exact fun c ds _ hc hle => ⟨hc, hle⟩
  | cons s rest ih =>
      intro c ds hm hc hle
      obtain ⟨hmatch, hrest⟩ := hm
      have hstep := donate_step_invariant c ds s hmatch hc hle
      have hrw : donateEndpointRun c ds (s :: rest)
          = donateEndpointRun (donateEndpointStep c ds s).1
              (donateEndpointStep c ds s).2.1 rest := rfl
      rw [hrw]
      exact ih _ _ hrest hstep.1 hstep.2

/-- C10 counterexample rows: the URL campaign has goal 100 with nothing
raised; the unrelated body campaign is wide open with goal 1000. -/
def urlCampaignCex : Campaign :=
  { goal_amount := 100, raised_amount := 0, start_date := 0,
    end_date := 10, status := CampaignStatus.active, on_chain_id := none,
    transaction_hash := none }

def bodyCampaignCex : Campaign :=
  { goal_amount := 1000, raised_amount := 0, start_date := 0,
    end_date := 10, status := CampaignStatus.active, on_chain_id := none,
    transaction_hash := none }

/-- A POST to the goal-100 campaign's donate URL whose body names the
goal-1000 campaign and donates 500. -/
def mismatchRequestCex : DonationRequest :=
  { campaign := bodyCampaignCex, amount := some 500, token := none,
    token_quantity := none }

/-- C10 counterexample: the serializer validates against the
request-body campaign while the view persists onto the URL campaign
(views.py line 267), so a donation of 500 — five times the URL
campaign's remaining amount of 100 — is accepted when the body names a
wide-open campaign, and after this single all-through-the-endpoint run
the URL campaign's `raised_amount` (500) exceeds its `goal_amount`
(100).  This refutes both the claimed rejection and the claimed
invariant at a concrete input. -/
theorem C10_counterexample_body_url_mismatch :
    donation_value mismatchRequestCex = 500 ∧
    urlCampaignCex.get_remaining_amount = 100 ∧
    (donateEndpointStep urlCampaignCex [] (5, mismatchRequestCex)).2.2
      = true ∧
    (donateEndpointRun urlCampaignCex []
        [(5, mismatchRequestCex)]).1.raised_amount = 500 ∧
    (donateEndpointRun urlCampaignCex []
        [(5, mismatchRequestCex)]).1.goal_amount
      < (donateEndpointRun urlCampaignCex []
        [(5, mismatchRequestCex)]).1.raised_amount := by
  have hv : DonationCreateSerializer.validate 5 mismatchRequestCex
      = Except.ok () := by
    unfold DonationCreateSerializer.validate mismatchRequestCex
      bodyCampaignCex
    norm_num [truthy, donation_value, Campaign.can_accept_donations,
      Campaign.can_accept_donation_amount, Campaign.get_remaining_amount,
      mismatchRequestCex, bodyCampaignCex]
  have hstep : donateEndpointStep urlCampaignCex [] (5, mismatchRequestCex)
      = ((update_campaign_status_and_amount 5
            (Campaign.update_status 5 urlCampaignCex)
            [{ amount := some 500, token := none, token_quantity := none,
               status := DonationStatus.completed,
               transaction_hash := none }]).1,
         [{ amount := some 500, token := none, token_quantity := none,
            status := DonationStatus.completed,
            transaction_hash := none }], true) := by
    unfold donateEndpointStep
    dsimp only
    rw [hv]
    rfl
  have hrun : donateEndpointRun urlCampaignCex [] [(5, mismatchRequestCex)]
      = ((donateEndpointStep urlCampaignCex [] (5, mismatchRequestCex)).1,
         (donateEndpointStep urlCampaignCex [] (5, mismatchRequestCex)).2.1) :=
    rfl
  have hsum : completedSum
      [{ amount := some 500, token := none, token_quantity := none,
         status := DonationStatus.completed, transaction_hash := none }]
      = 500 := by
    norm_num [completedSum]
  have hraised : (donateEndpointRun urlCampaignCex []
      [(5, mismatchRequestCex)]).1.raised_amount = 500 := by
    rw [hrun, hstep]
    dsimp only
    rw [(recompute_fields 5 (Campaign.update_status 5 urlCampaignCex) _).1,
      hsum]
  have hgoal : (donateEndpointRun urlCampaignCex []
      [(5, mismatchRequestCex)]).1.goal_amount = 100 := by
    rw [hrun, hstep]
    dsimp only
    rw [(recompute_fields 5 (Campaign.update_status 5 urlCampaignCex) _).2,
      update_status_goal]
    rfl
  refine ⟨by decide, ?_, ?_, hraised, ?_⟩
  · show max (0 : ℚ) (100 - 0) = 100
    rw [show (100 : ℚ) - 0 = 100 by norm_num,
      max_eq_right (by norm_num : (0 : ℚ) ≤ 100)]
  · rw [hstep]
  · rw [hraised, hgoal]
    norm_num

/-- C10 amended: serializer acceptance certifies the request-body
campaign — it is ACTIVE within its date window with the goal unreached,
and the donation value (fiat amount, or token quantity times the
token's fiat value) is at most that body campaign's remaining amount
`max(0, goal_amount - raised_amount)`; any request violating these for
its body campaign is rejected.  The view then persists the accepted
donation onto the URL campaign (views.py line 267), so the cap on the
URL campaign is guaranteed only in the normal same-campaign flow: when
every request's body campaign is the URL campaign's current row,
`raised_amount ≤ goal_amount` holds after any sequence of requests. -/
theorem C10_amended_body_campaign_validation (now : ℤ) (c : Campaign)
    (ds : List Donation) (req : DonationRequest)
    (steps : List (ℤ × DonationRequest)) :
    (DonationCreateSerializer.validate now req = Except.ok () →
      req.campaign.status = CampaignStatus.active ∧
      req.campaign.start_date ≤ now ∧ now ≤ req.campaign.end_date ∧
      req.campaign.raised_amount < req.campaign.goal_amount ∧
      donation_value req ≤ req.campaign.get_remaining_amount) ∧
    (matchedRun c ds steps → completedSum ds = c.raised_amount →
      c.raised_amount ≤ c.goal_amount →
      (donateEndpointRun c ds steps).1.raised_amount
        ≤ (donateEndpointRun c ds steps).1.goal_amount) := by
  constructor
  · intro h
    obtain ⟨hacc, hamt, _⟩ := validate_ok_facts now req h
    have hwin := (can_accept_donations_iff now req.campaign).mp hacc
    refine ⟨hwin.1, hwin.2.1, hwin.2.2.1, hwin.2.2.2, ?_⟩
    simpa [Campaign.can_accept_donation_amount, decide_eq_true_eq] using hamt
  · intro hm hc hle
    exact (donate_run_invariant steps c ds hm hc hle).2

/-- The same-campaign request used by the C10 witness: its body
campaign is the URL campaign's current (status-refreshed) row. -/
def matchedRequestCex : DonationRequest :=
  { campaign := Campaign.update_status 5 urlCampaignCex,
    amount := some 60, token := none, token_quantity := none }

/-- C10 amended witness: a matched run of one 60 donation into the
goal-100 campaign keeps `raised_amount ≤ goal_amount`. -/
theorem C10_amended_body_campaign_validation_witness :
    matchedRun urlCampaignCex [] [(5, matchedRequestCex)] ∧
    completedSum [] = urlCampaignCex.raised_amount ∧
    urlCampaignCex.raised_amount ≤ urlCampaignCex.goal_amount ∧
    (donateEndpointRun urlCampaignCex []
        [(5, matchedRequestCex)]).1.raised_amount
      ≤ (donateEndpointRun urlCampaignCex []
        [(5, matchedRequestCex)]).1.goal_amount :=
  ⟨⟨rfl, trivial⟩, rfl, by norm_num [urlCampaignCex],
   (C10_amended_body_campaign_validation 5 urlCampaignCex []
      matchedRequestCex [(5, matchedRequestCex)]).2
     ⟨rfl, trivial⟩ rfl (by norm_num [urlCampaignCex])⟩

end CharityPlatform
